import Mathlib

/-!
Verification of the feature-derivation and dataset-assembly pipeline of an
FPL (fantasy football) prediction system.  The definitions below are a
shallow embedding of the TypeScript source: `FeatureEngineer`
(feature engineering over player histories and fixtures), `DataProcessor`
(aggregation of raw player records), `DatasetCreator` (player x fixture
cross-join into training rows), `ModelTrainer.prepareData` and
`Predictor.predictPlayerPoints` (feature-vector construction).

JavaScript numbers are IEEE doubles.  We model the values flowing through
the pipeline as exact rationals, wrapped in `JsNum` (finite / +Infinity /
-Infinity / NaN) at the points where an unguarded division can produce a
non-finite result.  Rounding is ignored: every claim is about exact small
values and guard behaviour, not about floating-point error.
-/

namespace FplAi

/-- A JavaScript number: a finite value (modelled exactly as a rational),
positive or negative infinity, or NaN. -/
inductive JsNum where
  | finite (q : ℚ)
  | posInf
  | negInf
  | nan
deriving DecidableEq, Repr

/-- JS division of two finite numbers: `a / 0` is NaN when `a = 0`
(the IEEE 0/0 case) and a signed infinity otherwise; division by a
nonzero denominator is exact rational division. -/
def jsDiv (a b : ℚ) : JsNum :=
  if b = 0 then
    if a = 0 then .nan else if 0 < a then .posInf else .negInf
  else .finite (a / b)

/-- JS addition on the number model: NaN propagates, opposite infinities
give NaN, an infinity absorbs finite values. -/
def jsAdd : JsNum → JsNum → JsNum
  | .nan, _ => .nan
  | _, .nan => .nan
  | .posInf, .negInf => .nan
  | .negInf, .posInf => .nan
  | .posInf, _ => .posInf
  | _, .posInf => .posInf
  | .negInf, _ => .negInf
  | _, .negInf => .negInf
  | .finite a, .finite b => .finite (a + b)

/-- JS multiplication of a number by a finite constant: NaN propagates,
`Infinity * 0` is NaN, otherwise infinities keep or flip sign with the
sign of the constant. -/
def jsMulc (x : JsNum) (c : ℚ) : JsNum :=
  match x with
  | .nan => .nan
  | .finite a => .finite (a * c)
  | .posInf => if c = 0 then .nan else if 0 < c then .posInf else .negInf
  | .negInf => if c = 0 then .nan else if 0 < c then .negInf else .posInf

/-- JS division of a (possibly non-finite) numerator by a finite
denominator; a zero denominator acts as IEEE +0. -/
def jsDivq (x : JsNum) (b : ℚ) : JsNum :=
  match x with
  | .nan => .nan
  | .finite a => jsDiv a b
  | .posInf => if 0 ≤ b then .posInf else .negInf
  | .negInf => if 0 ≤ b then .negInf else .posInf

/-- The JS idiom `x || d` applied to a finite number: `0` is falsy and is
replaced by the default, every other number is kept. -/
def jsOr (x : ℚ) (d : ℚ) : ℚ :=
  if x = 0 then d else x

/-- `(team?.field || d)`: the team record may be absent and the field may
be absent on a present record; `undefined` and `0` both fall back to the
default. -/
def fieldOr {α : Type} (t : Option α) (f : α → Option ℚ) (d : ℚ) : ℚ :=
  match t with
  | none => d
  | some team =>
    match f team with
    | none => d
    | some v => jsOr v d

/-- A per-game numeric string as found in raw player history
(`expected_goals` and friends): absent or empty (JS-falsy, so replaced by
`"0"` before parsing), present and parseable to a number, or present but
not parseable (so `parseFloat` returns NaN). -/
inductive RawField where
  | absent
  | parsed (q : ℚ)
  | malformed
deriving DecidableEq, Repr

/-- `parseFloat(field || "0")` from `DataProcessor.processPlayerData`:
an absent/falsy field parses the literal `"0"`, a parseable string yields
its value, an unparseable string yields NaN. -/
def parseFloatField : RawField → JsNum
  | .absent => .finite 0
  | .parsed q => .finite q
  | .malformed => .nan

/-- One completed-match entry of a player's history (`GameEntry`).
Numeric fields are modelled as exact rationals; the three expected-stat
fields are raw numeric strings. -/
structure GameEntry where
  round : ℚ := 0
  total_points : ℚ := 0
  minutes : ℚ := 0
  goals_scored : ℚ := 0
  assists : ℚ := 0
  clean_sheets : ℚ := 0
  goals_conceded : ℚ := 0
  bonus : ℚ := 0
  value : ℚ := 0
  was_home : Bool := false
  team_h_score : ℚ := 0
  team_a_score : ℚ := 0
  difficulty : ℚ := 0
  expected_goals : RawField := .absent
  expected_assists : RawField := .absent
  expected_goal_involvements : RawField := .absent
deriving DecidableEq, Repr

/-- An upcoming fixture as seen from a player record: only its
difficulty rating is consumed by the pipeline. -/
structure UpcomingFixture where
  difficulty : ℚ
deriving DecidableEq, Repr

/-- `FeatureEngineer.calculateRecentForm`: 0 on an empty (or absent)
history, otherwise the mean of `total_points` over `history.slice(-5)`.
`slice(-5)` is `drop (length - 5)` (the whole list when shorter than 5). -/
def calculateRecentForm (history : List GameEntry) : ℚ :=
  if history.length = 0 then 0
  else
    let recentGames := history.drop (history.length - 5)
    (recentGames.foldl (fun sum game => sum + game.total_points) 0) /
      (recentGames.length : ℚ)

/-- `FeatureEngineer.calculateConsistency`: 0 on an empty history,
otherwise the population standard deviation of `total_points`. -/
noncomputable def calculateConsistency (history : List GameEntry) : ℝ :=
  if history.length = 0 then 0
  else
    let points := history.map (fun game => game.total_points)
    let mean := (points.foldl (fun sum p => sum + p) 0) / (points.length : ℚ)
    let squaredDiffs := points.map (fun p => (p - mean) ^ 2)
    Real.sqrt
      (((squaredDiffs.foldl (fun sum d => sum + d) 0) / (points.length : ℚ) : ℚ))

/-- The weight list `[0.1, 0.15, 0.2, 0.25, 0.3]` of
`FeatureEngineer.calculateFormTrend`. -/
def formWeights : List ℚ := [1/10, 3/20, 1/5, 1/4, 3/10]

/-- `FeatureEngineer.calculateFormTrend`: reduce over
`currentSeason.slice(-5)` with index, adding
`game.total_points * weights[index]`.  The index never exceeds 4 (the
slice has at most 5 elements), so the `getD _ 0` default arm is
unreachable. -/
def calculateFormTrend (currentSeason : List GameEntry) : ℚ :=
  let recentGames := currentSeason.drop (currentSeason.length - 5)
  (recentGames.enum).foldl
    (fun trend ig => trend + ig.2.total_points * formWeights.getD ig.1 0) 0

/-- `FeatureEngineer.calculateInjuryProneness`:
`(injuryGames / history.length) * 100` where `injuryGames` counts the
zero-minute entries.  The division is NOT guarded: on an empty history it
is the JS `0/0`, i.e. NaN. -/
def calculateInjuryProneness (history : List GameEntry) : JsNum :=
  let injuryGames := (history.filter (fun game => game.minutes = 0)).length
  jsMulc (jsDiv (injuryGames : ℚ) (history.length : ℚ)) 100

/-- The average-points helper of `FeatureEngineer.calculateSeasonImprovement`:
`season.reduce((sum, game) => sum + game.total_points, 0) / (season.length || 1)`.
The `|| 1` guard is on the length, so this value is always finite. -/
def seasonAvg (season : List GameEntry) : ℚ :=
  (season.foldl (fun sum game => sum + game.total_points) 0) /
    jsOr (season.length : ℚ) 1

/-- `FeatureEngineer.calculateSeasonImprovement`:
`((currentSeasonAvg - lastSeasonAvg) / lastSeasonAvg) * 100`.  Only the
two season lengths carry `|| 1` guards; the final division by
`lastSeasonAvg` itself is unguarded. -/
def calculateSeasonImprovement (lastSeason currentSeason : List GameEntry) : JsNum :=
  let lastSeasonAvg := seasonAvg lastSeason
  let currentSeasonAvg := seasonAvg currentSeason
  jsMulc (jsDiv (currentSeasonAvg - lastSeasonAvg) lastSeasonAvg) 100

/-- `FeatureEngineer.calculateHomeAwayDelta`: average home points minus
average away points, each count guarded by `|| 1`. -/
def calculateHomeAwayDelta (history : List GameEntry) : ℚ :=
  let homePerformance :=
    (history.filter (fun game => game.was_home)).foldl
      (fun sum game => sum + game.total_points) 0
  let awayPerformance :=
    (history.filter (fun game => !game.was_home)).foldl
      (fun sum game => sum + game.total_points) 0
  let homeGames := (history.filter (fun game => game.was_home)).length
  let awayGames := (history.filter (fun game => !game.was_home)).length
  homePerformance / jsOr (homeGames : ℚ) 1 -
    awayPerformance / jsOr (awayGames : ℚ) 1

/-- `FeatureEngineer.calculatePriceChangeResilience`: over consecutive
history pairs, count the transitions where `value` changed and accumulate
the absolute points change on those; `0` when no price ever changed. -/
def calculatePriceChangeResilience (history : List GameEntry) : ℚ :=
  let step := (history.zip (history.drop 1)).foldl
    (fun acc pc =>
      if pc.2.value - pc.1.value ≠ 0 then
        (acc.1 + 1, acc.2 + |pc.2.total_points - pc.1.total_points|)
      else acc)
    ((0 : ℚ), (0 : ℚ))
  if step.1 = 0 then 0 else step.2 / step.1

/-- `FeatureEngineer.calculateTeamImpact`: per-game goal involvement over
team total score (score guarded by `|| 1`), averaged by an UNGUARDED
division by `history.length` — NaN on an empty history. -/
def calculateTeamImpact (history : List GameEntry) : JsNum :=
  jsDiv
    (history.foldl
      (fun impact game =>
        impact + (game.goals_scored + game.assists) /
          jsOr (game.team_h_score + game.team_a_score) 1)
      0)
    (history.length : ℚ)

/-- `FeatureEngineer.adjustPerformanceForDifficulty`: points scaled by
`difficulty / 3`, averaged by an UNGUARDED division by `history.length`. -/
def adjustPerformanceForDifficulty (history : List GameEntry) : JsNum :=
  jsDiv
    (history.foldl
      (fun adjusted game => adjusted + game.total_points * (game.difficulty / 3))
      0)
    (history.length : ℚ)

/-- `FeatureEngineer.calculateUpcomingFixtureDifficulty`: 0 on an empty
(or absent) fixture list, otherwise the sum of the first 5 fixtures'
difficulties divided by the constant 5. -/
def calculateUpcomingFixtureDifficulty (fixtures : List UpcomingFixture) : ℚ :=
  if fixtures.length = 0 then 0
  else
    ((fixtures.take 5).foldl (fun sum fixture => sum + fixture.difficulty) 0) / 5

/-- Inline in `createPlayerFeatures`:
`player.totalPoints / (player.now_cost || 1)`. -/
def pricePerformanceRatio (totalPoints now_cost : ℚ) : ℚ :=
  totalPoints / jsOr now_cost 1

/-- Inline in `createPlayerFeatures`:
`player.cleanSheets / (player.minutesPlayed / 90 || 1)`. -/
def cleanSheetContribution (cleanSheets minutesPlayed : ℚ) : ℚ :=
  cleanSheets / jsOr (minutesPlayed / 90) 1

/-- Inline in `createPlayerFeatures`:
`player.saves / (player.saves + player.goalsConceded || 1)`.
`DataProcessor.processPlayerData` never writes a `saves` field into
`processed_players` (and each run fully replaces that collection), so at
every real call `player.saves` is `undefined`: `undefined + goalsConceded`
is NaN, NaN is falsy so the `|| 1` default fires, and `undefined / 1` is
NaN.  The absent case is therefore modelled explicitly. -/
def savePercentage (saves : Option ℚ) (goalsConceded : ℚ) : JsNum :=
  match saves with
  | some s => .finite (s / jsOr (s + goalsConceded) 1)
  | none => .nan

/-- Inline in `createPlayerFeatures`:
`(player.xG + player.xA) / (player.minutesPlayed / 90 || 1)`.  The
denominator carries a `|| 1` guard, but the numerator is the sum of the
xG/xA aggregates from `processPlayerData`, which can be NaN (their
division by games played is unguarded), and NaN propagates through the
guarded division. -/
def bigChanceInvolvement (xG xA : JsNum) (minutesPlayed : ℚ) : JsNum :=
  jsDivq (jsAdd xG xA) (jsOr (minutesPlayed / 90) 1)

/-- Inline in `createPlayerFeatures`:
`history.reduce((sum, game) => sum + game.bonus, 0) / player.history.length`
— the division is UNGUARDED, hence NaN on an empty history. -/
def bonusPointsPerGame (history : List GameEntry) : JsNum :=
  jsDiv (history.foldl (fun sum game => sum + game.bonus) 0)
    (history.length : ℚ)

/-- Sum of the parsed expected-stat strings over a history
(`history.reduce((sum, gw) => sum + parseFloat(gw.field || "0"), 0)` in
`DataProcessor.processPlayerData`); a malformed string contributes NaN,
which poisons the whole sum. -/
def sumParsedField (field : GameEntry → RawField) (history : List GameEntry) : JsNum :=
  history.foldl (fun sum gw => jsAdd sum (parseFloatField (field gw))) (.finite 0)

/-- `DataProcessor.processPlayerData` xG aggregate:
`history.reduce((sum, gw) => sum + parseFloat(gw.expected_goals || "0"), 0) / gamesPlayed`
where `gamesPlayed = history.length`.  The division is UNGUARDED. -/
def aggregateXG (history : List GameEntry) : JsNum :=
  jsDivq (sumParsedField (fun gw => gw.expected_goals) history) (history.length : ℚ)

/-- `DataProcessor.processPlayerData` xA aggregate (same shape as xG,
over `expected_assists`). -/
def aggregateXA (history : List GameEntry) : JsNum :=
  jsDivq (sumParsedField (fun gw => gw.expected_assists) history) (history.length : ℚ)

/-- `DataProcessor.processPlayerData` xGI aggregate (same shape as xG,
over `expected_goal_involvements`). -/
def aggregateXGI (history : List GameEntry) : JsNum :=
  jsDivq (sumParsedField (fun gw => gw.expected_goal_involvements) history)
    (history.length : ℚ)

/-- A processed team record (`processed_teams`), restricted to the fields
read by the embedded `FeatureEngineer` helpers.  Each field may be absent
on a raw document, hence `Option`. -/
structure TeamRec where
  strength : Option ℚ := none
  strengthAttackHome : Option ℚ := none
  strengthAttackAway : Option ℚ := none
  strengthDefenceHome : Option ℚ := none
  strengthDefenceAway : Option ℚ := none
  position : Option ℚ := none
deriving DecidableEq, Repr

/-- `FeatureEngineer.calculateExpectedGoals`:
`(homeAttack/awayDefense)*1.25 + (awayAttack/homeDefense)*1.25`, each of
the four strengths read as `team?.field || 1000`.  The `|| 1000` default
makes both denominators nonzero whenever the stored strengths are
nonzero, so the divisions stay finite. -/
def calculateExpectedGoals (homeTeam awayTeam : Option TeamRec) : ℚ :=
  let homeAttack := fieldOr homeTeam (fun t => t.strengthAttackHome) 1000
  let awayDefense := fieldOr awayTeam (fun t => t.strengthDefenceAway) 1000
  let awayAttack := fieldOr awayTeam (fun t => t.strengthAttackAway) 1000
  let homeDefense := fieldOr homeTeam (fun t => t.strengthDefenceHome) 1000
  (homeAttack / awayDefense) * (1.25 : ℚ) + (awayAttack / homeDefense) * (1.25 : ℚ)

/-- `FeatureEngineer.calculateExpectedTeamGoals`:
`(attackStrength / opponentDefenseStrength) * 1.25` with NO guard on the
denominator, so a zero defence strength produces NaN (for zero attack) or
a signed infinity. -/
def calculateExpectedTeamGoals (attackStrength opponentDefenseStrength : ℚ) : JsNum :=
  jsMulc (jsDiv attackStrength opponentDefenseStrength) (1.25 : ℚ)

/-- Call site of `expectedHomeGoals` in `createFixtureFeatures`:
`calculateExpectedTeamGoals(homeTeam?.strengthAttackHome || 0, awayTeam?.strengthDefenceAway || 0)`
— note the defaults here are `0`, not `1000`. -/
def expectedHomeGoals (homeTeam awayTeam : Option TeamRec) : JsNum :=
  calculateExpectedTeamGoals
    (fieldOr homeTeam (fun t => t.strengthAttackHome) 0)
    (fieldOr awayTeam (fun t => t.strengthDefenceAway) 0)

/-- Call site of `homeTeamStrength` in `createFixtureFeatures`:
`homeTeam?.strength || 0`. -/
def homeTeamStrengthOf (homeTeam : Option TeamRec) : ℚ :=
  fieldOr homeTeam (fun t => t.strength) 0

/-- `FeatureEngineer.calculatePositionStrength`:
`Math.max(0.05, 1 - (position - 1) / 19)`. -/
def calculatePositionStrength (position : ℚ) : ℚ :=
  max (0.05 : ℚ) (1 - (position - 1) / 19)

/-- Call site of `homePositionStrength` in `createFixtureFeatures`:
`calculatePositionStrength(homeTeam?.position || 0)` — an absent team or
absent position defaults to rank 0. -/
def homePositionStrength (homeTeam : Option TeamRec) : ℚ :=
  calculatePositionStrength (fieldOr homeTeam (fun t => t.position) 0)

/-- The finite-estimate kernel of
`FeatureEngineer.calculateExpectedCleanSheet`: `Math.exp(-goalExpectancy)`
applied to a finite goal expectancy. -/
noncomputable def expNegEstimate (g : ℝ) : ℝ := Real.exp (-g)

/-- `FeatureEngineer.calculateExpectedCleanSheet`:
`Math.exp(-calculateExpectedTeamGoals(opponentAttackStrength, defenseStrength))`.
The result is a JS double; we model a finite result as `some r`
(`Math.exp(-Infinity) = 0` is finite) and a non-finite result
(`exp` of NaN is NaN, `exp(+Infinity)` is `Infinity`) as `none`. -/
noncomputable def calculateExpectedCleanSheet
    (defenseStrength opponentAttackStrength : ℚ) : Option ℝ :=
  match calculateExpectedTeamGoals opponentAttackStrength defenseStrength with
  | .finite q => some (expNegEstimate (q : ℝ))
  | .posInf => some 0
  | .negInf => none
  | .nan => none

/-- A stored player-feature document, restricted to the fields read by
`DatasetCreator.combinePlayerAndFixtureData` and
`Predictor.predictPlayerPoints`. -/
structure PlayerFeatureRec where
  id : ℚ
  recentFormScore : ℚ
  pricePerformanceRatio : ℚ
  consistencyScore : ℚ
  upcomingFixtureDifficulty : ℚ
deriving DecidableEq, Repr

/-- A stored fixture-feature document, restricted to the fields read by
`DatasetCreator.combinePlayerAndFixtureData` and
`Predictor.predictPlayerPoints`. -/
structure FixtureFeatureRec where
  id : ℚ
  homeTeamStrength : ℚ
  awayTeamStrength : ℚ
  strengthDifference : ℚ
  expectedGoals : ℚ
deriving DecidableEq, Repr

/-- One training row pushed by
`DatasetCreator.combinePlayerAndFixtureData`. -/
structure TrainingRow where
  playerId : ℚ
  fixtureId : ℚ
  recentFormScore : ℚ
  pricePerformanceRatio : ℚ
  consistencyScore : ℚ
  upcomingFixtureDifficulty : ℚ
  homeTeamStrength : ℚ
  awayTeamStrength : ℚ
  strengthDifference : ℚ
  expectedGoals : ℚ
  actualPoints : ℚ
deriving DecidableEq, Repr

/-- The row literal pushed for one (player, fixture) pair in
`combinePlayerAndFixtureData`; `rand` stands for the `Math.random() * 20`
placeholder target. -/
def mkTrainingRow (player : PlayerFeatureRec) (fixture : FixtureFeatureRec)
    (rand : ℚ) : TrainingRow :=
  { playerId := player.id
    fixtureId := fixture.id
    recentFormScore := player.recentFormScore
    pricePerformanceRatio := player.pricePerformanceRatio
    consistencyScore := player.consistencyScore
    upcomingFixtureDifficulty := player.upcomingFixtureDifficulty
    homeTeamStrength := fixture.homeTeamStrength
    awayTeamStrength := fixture.awayTeamStrength
    strengthDifference := fixture.strengthDifference
    expectedGoals := fixture.expectedGoals
    actualPoints := rand }

/-- `DatasetCreator.combinePlayerAndFixtureData`: the nested
for-of loops push one row per (player, fixture) pair, in player-major
order; rendered purely as bind/map.  The random draw is abstracted by the
single oracle value `rand` (it never influences row structure or count). -/
def combinePlayerAndFixtureData (rand : ℚ)
    (playerFeatures : List PlayerFeatureRec)
    (fixtureFeatures : List FixtureFeatureRec) : List TrainingRow :=
  playerFeatures.flatMap (fun player =>
    fixtureFeatures.map (fun fixture => mkTrainingRow player fixture rand))

/-- The per-item input vector of `ModelTrainer.prepareData`
(modelTrainer.ts, the `inputs` map). -/
def prepareDataInput (item : TrainingRow) : List ℚ :=
  [item.recentFormScore, item.pricePerformanceRatio, item.consistencyScore,
   item.upcomingFixtureDifficulty, item.homeTeamStrength, item.awayTeamStrength,
   item.strengthDifference, item.expectedGoals]

/-- The inference input vector of `Predictor.predictPlayerPoints`
(predictor.ts, the `tf.tensor2d` literal). -/
def predictInput (playerFeatures : PlayerFeatureRec)
    (fixtureFeatures : FixtureFeatureRec) : List ℚ :=
  [playerFeatures.recentFormScore, playerFeatures.pricePerformanceRatio,
   playerFeatures.consistencyScore, playerFeatures.upcomingFixtureDifficulty,
   fixtureFeatures.homeTeamStrength, fixtureFeatures.awayTeamStrength,
   fixtureFeatures.strengthDifference, fixtureFeatures.expectedGoals]

/-- The ordered field names of the training-time input vector, as written
in `ModelTrainer.prepareData`. -/
def trainingFeatureOrder : List String :=
  ["recentFormScore", "pricePerformanceRatio", "consistencyScore",
   "upcomingFixtureDifficulty", "homeTeamStrength", "awayTeamStrength",
   "strengthDifference", "expectedGoals"]

/-- The ordered field names of the inference-time input vector, as
written in `Predictor.predictPlayerPoints`. -/
def inferenceFeatureOrder : List String :=
  ["recentFormScore", "pricePerformanceRatio", "consistencyScore",
   "upcomingFixtureDifficulty", "homeTeamStrength", "awayTeamStrength",
   "strengthDifference", "expectedGoals"]

instance : Inhabited GameEntry := ⟨{}⟩

/-- The rational a well-formed expected-stat string contributes to the
sums of `processPlayerData`: 0 when absent (parse of the substituted
`"0"`), its value when parseable.  Used to state the means of C5. -/
def wellFormedValue : RawField → ℚ
  | .absent => 0
  | .parsed q => q
  | .malformed => 0

/-- The weighted-sum formula of the spec for `formTrend`: weight `i`
multiplies the `i`-th game (left to right, i.e. oldest to newest) of the
last-5 slice of the current season, and a slice shorter than 5 uses the
weight slots starting from the head of the weight list. -/
def formTrendSpec (currentSeason : List GameEntry) : ℚ :=
  let s := currentSeason.drop (currentSeason.length - 5)
  ∑ i ∈ Finset.range s.length, formWeights.getD i 0 * (s.getD i default).total_points

end FplAi

/-- Helper: a fold of `jsAdd` over parsed fields, none of which is
malformed, stays finite and computes the plain rational sum. -/
theorem FplAi.sumParsedField_wf (field : FplAi.GameEntry → FplAi.RawField) :
    ∀ (h : List FplAi.GameEntry) (acc : ℚ), (∀ g ∈ h, field g ≠ .malformed) →
      h.foldl (fun sum gw => FplAi.jsAdd sum (FplAi.parseFloatField (field gw)))
          (.finite acc)
        = .finite (h.foldl (fun sum gw => sum + FplAi.wellFormedValue (field gw)) acc) := by
  intro h
  induction h with
  | nil => intro acc _; rfl
  | cons g t ih =>
      intro acc hwf
      have hg : field g ≠ .malformed := hwf g (List.mem_cons_self g t)
      have hval : FplAi.parseFloatField (field g)
          = .finite (FplAi.wellFormedValue (field g)) := by
        cases hfg : field g with
        | absent => rfl
        | parsed q => rfl
        | malformed => exact absurd hfg hg
      simp only [List.foldl_cons, hval, FplAi.jsAdd]
      exact ih (acc + FplAi.wellFormedValue (field g))
        (fun x hx => hwf x (List.mem_cons_of_mem g hx))

/-- Helper: the indexed reduce of `calculateFormTrend` over an
enumeration starting at `k` equals the accumulator plus the
position-indexed weighted sum. -/
theorem FplAi.foldl_enumFrom_weighted (l : List FplAi.GameEntry) :
    ∀ (k : ℕ) (acc : ℚ),
      ((l.enumFrom k).foldl
        (fun trend ig => trend + ig.2.total_points * FplAi.formWeights.getD ig.1 0) acc)
      = acc + ∑ i ∈ Finset.range l.length,
          FplAi.formWeights.getD (k + i) 0 * (l.getD i default).total_points := by
  induction l with
  | nil => intro k acc; simp
  | cons g t ih =>
      intro k acc
      simp only [List.enumFrom, List.foldl_cons, List.length_cons]
      rw [ih (k + 1) (acc + g.total_points * FplAi.formWeights.getD k 0)]
      rw [Finset.sum_range_succ']
      simp only [List.getD_cons_succ, List.getD_cons_zero, Nat.add_zero]
      have hidx : ∀ i,
          FplAi.formWeights.getD (k + 1 + i) 0 * (t.getD i default).total_points
            = FplAi.formWeights.getD (k + (i + 1)) 0 * (t.getD i default).total_points := by
        intro i
        congr 2
        omega
      rw [Finset.sum_congr rfl (fun i _ => hidx i)]
      ring

/-- C1 counterexample: the claim says `injuryProneness` equals 0 for a
player with empty game history, but `calculateInjuryProneness` divides
the zero-minute game count by the raw history length with no guard, so on
the empty history it computes the JS `0/0`, i.e. NaN — not the finite
value 0. -/
theorem claim_C1_counterexample :
    FplAi.calculateInjuryProneness [] = FplAi.JsNum.nan ∧
    FplAi.JsNum.nan ≠ FplAi.JsNum.finite 0 := by
  constructor
  · simp [FplAi.calculateInjuryProneness, FplAi.jsDiv, FplAi.jsMulc]
  · intro h
    exact FplAi.JsNum.noConfusion h

/-- C1 (amended): for a player whose game history is empty, the derived
features `recentFormScore`, `consistencyScore` and `formTrend` all equal
0, but `injuryProneness` is NaN (the unguarded `0/0`), not 0. -/
theorem claim_C1_empty_history_features :
    FplAi.calculateRecentForm [] = 0 ∧
    FplAi.calculateConsistency [] = 0 ∧
    FplAi.calculateFormTrend [] = 0 ∧
    FplAi.calculateInjuryProneness [] = FplAi.JsNum.nan := by
  refine ⟨?_, ?_, ?_, ?_⟩
  · simp [FplAi.calculateRecentForm]
  · simp [FplAi.calculateConsistency]
  · simp [FplAi.calculateFormTrend]
  · simp [FplAi.calculateInjuryProneness, FplAi.jsDiv, FplAi.jsMulc]

/-- C2 counterexample: the claim says every derived feature yields its
documented fallback (0 for averages over empty sets) on every valid
input, but `bonusPointsPerGame` — inline in `createPlayerFeatures` —
divides the bonus sum by the raw history length, so on an empty history
it is NaN, not the fallback 0. -/
theorem claim_C2_counterexample :
    FplAi.bonusPointsPerGame [] = FplAi.JsNum.nan ∧
    FplAi.JsNum.nan ≠ FplAi.JsNum.finite 0 := by
  constructor
  · simp [FplAi.bonusPointsPerGame, FplAi.jsDiv]
  · intro h
    exact FplAi.JsNum.noConfusion h

/-- C2 (amended): the derived features whose guards cover all of their
inputs yield their documented fallbacks on empty or zero denominators
(first nine conjuncts: early return on empty history, `|| 1` on a count
or cost, `|| 0` / `|| 1000` on an absent team field, the price-change
ternary).  But the claimed totality fails elsewhere:
`bonusPointsPerGame`, `injuryProneness`, `teamPerformanceImpact` and
`difficultyAdjustedPerformance` divide by the unguarded history length
and are NaN on an empty history; `savePercentage` is NaN for EVERY
goals-conceded value because `processPlayerData` never writes a `saves`
field, so the numerator is always `undefined`; `bigChanceInvolvement` is
NaN on an empty history despite its `|| 1` guard, inheriting NaN from the
unguarded xG/xA aggregates; and `expectedHomeGoals` (defaults of 0 with
an unguarded division inside `calculateExpectedTeamGoals`) is NaN when
both team records are absent. -/
theorem claim_C2_totality_and_fallbacks :
    FplAi.calculateRecentForm [] = 0 ∧
    FplAi.calculateConsistency [] = 0 ∧
    FplAi.calculateUpcomingFixtureDifficulty [] = 0 ∧
    FplAi.calculateHomeAwayDelta [] = 0 ∧
    FplAi.calculatePriceChangeResilience [] = 0 ∧
    (∀ totalPoints : ℚ, FplAi.pricePerformanceRatio totalPoints 0 = totalPoints) ∧
    (∀ cleanSheets : ℚ, FplAi.cleanSheetContribution cleanSheets 0 = cleanSheets) ∧
    FplAi.homeTeamStrengthOf none = 0 ∧
    FplAi.calculateExpectedGoals none none = 2.5 ∧
    FplAi.bonusPointsPerGame [] = FplAi.JsNum.nan ∧
    FplAi.calculateInjuryProneness [] = FplAi.JsNum.nan ∧
    FplAi.calculateTeamImpact [] = FplAi.JsNum.nan ∧
    FplAi.adjustPerformanceForDifficulty [] = FplAi.JsNum.nan ∧
    (∀ goalsConceded : ℚ,
      FplAi.savePercentage none goalsConceded = FplAi.JsNum.nan) ∧
    (∀ minutesPlayed : ℚ,
      FplAi.bigChanceInvolvement (FplAi.aggregateXG []) (FplAi.aggregateXA [])
        minutesPlayed = FplAi.JsNum.nan) ∧
    FplAi.expectedHomeGoals none none = FplAi.JsNum.nan := by
  refine ⟨?_, ?_, ?_, ?_, ?_, ?_, ?_, ?_, ?_, ?_, ?_, ?_, ?_, ?_, ?_, ?_⟩
  · simp [FplAi.calculateRecentForm]
  · simp [FplAi.calculateConsistency]
  · simp [FplAi.calculateUpcomingFixtureDifficulty]
  · simp [FplAi.calculateHomeAwayDelta, FplAi.jsOr]
  · simp [FplAi.calculatePriceChangeResilience]
  · intro totalPoints
    simp [FplAi.pricePerformanceRatio, FplAi.jsOr]
  · intro cleanSheets
    simp [FplAi.cleanSheetContribution, FplAi.jsOr]
  · simp [FplAi.homeTeamStrengthOf, FplAi.fieldOr]
  · simp [FplAi.calculateExpectedGoals, FplAi.fieldOr]
    norm_num
  · simp [FplAi.bonusPointsPerGame, FplAi.jsDiv]
  · simp [FplAi.calculateInjuryProneness, FplAi.jsDiv, FplAi.jsMulc]
  · simp [FplAi.calculateTeamImpact, FplAi.jsDiv]
  · simp [FplAi.adjustPerformanceForDifficulty, FplAi.jsDiv]
  · intro goalsConceded
    rfl
  · intro minutesPlayed
    simp [FplAi.bigChanceInvolvement, FplAi.aggregateXG, FplAi.aggregateXA,
      FplAi.sumParsedField, FplAi.jsDivq, FplAi.jsDiv, FplAi.jsAdd]
  · simp [FplAi.expectedHomeGoals, FplAi.calculateExpectedTeamGoals, FplAi.fieldOr,
      FplAi.jsDiv, FplAi.jsMulc]

/-- C3: the dataset assembler's cross-join
(`combinePlayerAndFixtureData`) never fails — it is a total function —
and produces exactly |player features| x |fixture features| training
rows for collections of any sizes; in particular either input being empty
yields the empty row list. -/
theorem claim_C3_cross_join_row_count
    (rand : ℚ) (ps : List FplAi.PlayerFeatureRec)
    (fs : List FplAi.FixtureFeatureRec) :
    (FplAi.combinePlayerAndFixtureData rand ps fs).length = ps.length * fs.length ∧
    FplAi.combinePlayerAndFixtureData rand [] fs = [] ∧
    FplAi.combinePlayerAndFixtureData rand ps [] = [] := by
  refine ⟨?_, ?_, ?_⟩
  · induction ps with
    | nil => simp [FplAi.combinePlayerAndFixtureData]
    | cons p ps ih =>
        simp only [FplAi.combinePlayerAndFixtureData, List.flatMap_cons,
          List.length_append, List.length_map, List.length_cons] at ih ⊢
        rw [Nat.succ_mul, Nat.add_comm, ih]
  · rfl
  · simp [FplAi.combinePlayerAndFixtureData]

/-- C4: the ordered list of the 8 feature fields of the model-input
vector built at training time (`ModelTrainer.prepareData`) is identical,
field for field and in the same order, to the list built at inference
time (`Predictor.predictPlayerPoints`): the name lists coincide, and the
numeric vector prepared from any assembled training row equals the
inference vector built from the same player and fixture features. -/
theorem claim_C4_training_inference_feature_order :
    FplAi.trainingFeatureOrder = FplAi.inferenceFeatureOrder ∧
    FplAi.trainingFeatureOrder.length = 8 ∧
    ∀ (p : FplAi.PlayerFeatureRec) (f : FplAi.FixtureFeatureRec) (rand : ℚ),
      FplAi.prepareDataInput (FplAi.mkTrainingRow p f rand) = FplAi.predictInput p f :=
  ⟨rfl, rfl, fun _ _ _ => rfl⟩

/-- C5 counterexample: the claim says the xG/xA/xGI computation is
guarded against zero games played with an explicit zero default, but
`processPlayerData` divides the parsed sum by `gamesPlayed` with no
guard, so a player with an empty history gets xG = NaN (the JS `0/0`),
not 0. -/
theorem claim_C5_counterexample :
    FplAi.aggregateXG [] = FplAi.JsNum.nan ∧
    FplAi.JsNum.nan ≠ FplAi.JsNum.finite 0 := by
  constructor
  · simp [FplAi.aggregateXG, FplAi.sumParsedField, FplAi.jsDivq, FplAi.jsDiv]
  · intro h
    exact FplAi.JsNum.noConfusion h

/-- C5 (amended): for a player with at least one game and no malformed
expected-stat string, the aggregated xG, xA and xGI each equal the mean
over game entries of the parsed numeric strings, an absent string
contributing 0; but the division by games played is unguarded (NaN on an
empty history) and a present-but-unparseable string contributes NaN to
the whole aggregate rather than 0 (last conjunct). -/
theorem claim_C5_expected_stat_means (h : List FplAi.GameEntry)
    (hne : h.length ≠ 0)
    (hwf : ∀ g ∈ h, g.expected_goals ≠ FplAi.RawField.malformed ∧
        g.expected_assists ≠ FplAi.RawField.malformed ∧
        g.expected_goal_involvements ≠ FplAi.RawField.malformed) :
    FplAi.aggregateXG h = .finite
      ((h.foldl (fun sum gw => sum + FplAi.wellFormedValue gw.expected_goals) 0) /
        (h.length : ℚ)) ∧
    FplAi.aggregateXA h = .finite
      ((h.foldl (fun sum gw => sum + FplAi.wellFormedValue gw.expected_assists) 0) /
        (h.length : ℚ)) ∧
    FplAi.aggregateXGI h = .finite
      ((h.foldl (fun sum gw => sum + FplAi.wellFormedValue gw.expected_goal_involvements) 0) /
        (h.length : ℚ)) ∧
    FplAi.aggregateXG [{ expected_goals := FplAi.RawField.malformed }] = FplAi.JsNum.nan := by
  have hlen : (h.length : ℚ) ≠ 0 := Nat.cast_ne_zero.mpr hne
  refine ⟨?_, ?_, ?_, ?_⟩
  · unfold FplAi.aggregateXG FplAi.sumParsedField
    rw [FplAi.sumParsedField_wf (fun gw => gw.expected_goals) h 0
      (fun g hg => (hwf g hg).1)]
    simp [FplAi.jsDivq, FplAi.jsDiv, hlen]
  · unfold FplAi.aggregateXA FplAi.sumParsedField
    rw [FplAi.sumParsedField_wf (fun gw => gw.expected_assists) h 0
      (fun g hg => (hwf g hg).2.1)]
    simp [FplAi.jsDivq, FplAi.jsDiv, hlen]
  · unfold FplAi.aggregateXGI FplAi.sumParsedField
    rw [FplAi.sumParsedField_wf (fun gw => gw.expected_goal_involvements) h 0
      (fun g hg => (hwf g hg).2.2)]
    simp [FplAi.jsDivq, FplAi.jsDiv, hlen]
  · simp [FplAi.aggregateXG, FplAi.sumParsedField, FplAi.parseFloatField,
      FplAi.jsAdd, FplAi.jsDivq]

/-- C5 witness: the amended theorem applied to a one-game history whose
`expected_goals` string parses to 2 — the xG aggregate is the finite
mean 2. -/
theorem claim_C5_witness :
    FplAi.aggregateXG [{ expected_goals := FplAi.RawField.parsed 2 }] =
      FplAi.JsNum.finite 2 := by
  have hthm := claim_C5_expected_stat_means
    [{ expected_goals := FplAi.RawField.parsed 2 }] (by simp) (by simp)
  rw [hthm.1]
  norm_num [FplAi.wellFormedValue]

/-- C6 counterexample: the claim says the division is guarded so that
`seasonOnSeasonImprovement` is always a defined finite number, but for a
player with no last-season games and one 5-point current-season game the
last-season average is 0 and the unguarded final division yields
+Infinity — not the finite 500 the guarded formula (denominator
defaulted to 1) would give. -/
theorem claim_C6_counterexample :
    FplAi.calculateSeasonImprovement [] [{ total_points := 5 }] = FplAi.JsNum.posInf ∧
    FplAi.JsNum.posInf ≠ FplAi.JsNum.finite 500 := by
  constructor
  · simp [FplAi.calculateSeasonImprovement, FplAi.seasonAvg, FplAi.jsOr,
      FplAi.jsDiv, FplAi.jsMulc]
  · intro h
    exact FplAi.JsNum.noConfusion h

/-- C6 (amended): `calculateSeasonImprovement` guards only the two season
lengths with `|| 1` (inside `seasonAvg`); whenever the resulting
last-season average is nonzero the feature equals the percentage change
from last-season average points to current-season average points, but
the final division by the last-season average itself is unguarded, so a
zero last-season average yields a non-finite value. -/
theorem claim_C6_season_improvement (lastSeason currentSeason : List FplAi.GameEntry)
    (h : FplAi.seasonAvg lastSeason ≠ 0) :
    FplAi.calculateSeasonImprovement lastSeason currentSeason =
      .finite ((FplAi.seasonAvg currentSeason - FplAi.seasonAvg lastSeason) /
        FplAi.seasonAvg lastSeason * 100) := by
  simp [FplAi.calculateSeasonImprovement, FplAi.jsDiv, FplAi.jsMulc, h]

/-- C6 witness: the amended theorem applied to a 5-point last season and
an empty current season — a defined −100% change. -/
theorem claim_C6_witness :
    FplAi.calculateSeasonImprovement [{ total_points := 5 }] [] =
      FplAi.JsNum.finite (-100) := by
  have hthm := claim_C6_season_improvement [{ total_points := 5 }] []
    (by norm_num [FplAi.seasonAvg, FplAi.jsOr])
  rw [hthm]
  norm_num [FplAi.seasonAvg, FplAi.jsOr]

/-- C7: for every non-empty current-season history, `formTrend` equals
the weighted sum of the last 5 games' points with ascending weights
[0.10, 0.15, 0.20, 0.25, 0.30], weight `i` multiplying the `i`-th game of
the 5-slice left to right (oldest to newest); a shorter slice uses as
many weight slots as it has games, starting from the head of the weight
list. -/
theorem claim_C7_form_trend_weights (currentSeason : List FplAi.GameEntry)
    (_hne : currentSeason ≠ []) :
    FplAi.formWeights = [0.10, 0.15, 0.20, 0.25, 0.30] ∧
    FplAi.calculateFormTrend currentSeason = FplAi.formTrendSpec currentSeason := by
  have hlist : FplAi.formWeights = [0.10, 0.15, 0.20, 0.25, 0.30] := by
    simp [FplAi.formWeights]
    norm_num
  refine ⟨hlist, ?_⟩
  show (((currentSeason.drop (currentSeason.length - 5)).enum).foldl
      (fun trend ig => trend + ig.2.total_points * FplAi.formWeights.getD ig.1 0) 0)
    = FplAi.formTrendSpec currentSeason
  rw [show ∀ l : List FplAi.GameEntry, l.enum = l.enumFrom 0 from fun _ => rfl]
  rw [FplAi.foldl_enumFrom_weighted]
  simp [FplAi.formTrendSpec]

/-- C7 witness: the theorem applied to a two-game current season (1 then
2 points); the first two weight slots are used and the trend is
1 × 0.10 + 2 × 0.15 = 0.4. -/
theorem claim_C7_witness :
    FplAi.calculateFormTrend
        [{ total_points := 1 }, { total_points := 2 }] =
      FplAi.formTrendSpec [{ total_points := 1 }, { total_points := 2 }] ∧
    FplAi.formTrendSpec [{ total_points := 1 }, { total_points := 2 }] = 2/5 := by
  constructor
  · exact (claim_C7_form_trend_weights
      [{ total_points := 1 }, { total_points := 2 }] (by simp)).2
  · simp [FplAi.formTrendSpec, FplAi.formWeights, Finset.sum_range_succ]
    norm_num

/-- C8: `expectedGoals` equals (homeAttack/awayDefence) × 1.25 +
(awayAttack/homeDefence) × 1.25 when the four strengths are present and
nonzero; each strength defaults to 1000 when the team record is absent
(second conjunct: both teams absent gives the neutral 2.5); and at the
claim's concrete inputs (homeAttack 1200, awayDefence 1000, awayAttack
900, homeDefence 1100) the result is 111/44, which lies between 2.5227
and 2.5228. -/
theorem claim_C8_expected_goals (ha ad aa hd : ℚ)
    (h1 : ha ≠ 0) (h2 : ad ≠ 0) (h3 : aa ≠ 0) (h4 : hd ≠ 0) :
    FplAi.calculateExpectedGoals
        (some { strengthAttackHome := some ha, strengthDefenceHome := some hd })
        (some { strengthAttackAway := some aa, strengthDefenceAway := some ad })
      = (ha / ad) * 1.25 + (aa / hd) * 1.25 ∧
    FplAi.calculateExpectedGoals none none = (1000/1000) * 1.25 + (1000/1000) * 1.25 ∧
    FplAi.calculateExpectedGoals
        (some { strengthAttackHome := some 1200, strengthDefenceHome := some 1100 })
        (some { strengthAttackAway := some 900, strengthDefenceAway := some 1000 })
      = 111/44 ∧
    (2.5227 : ℚ) < 111/44 ∧ (111/44 : ℚ) < 2.5228 := by
  refine ⟨?_, ?_, ?_, by norm_num, by norm_num⟩
  · simp [FplAi.calculateExpectedGoals, FplAi.fieldOr, FplAi.jsOr, h1, h2, h3, h4]
  · simp [FplAi.calculateExpectedGoals, FplAi.fieldOr]
  · simp [FplAi.calculateExpectedGoals, FplAi.fieldOr, FplAi.jsOr]
    norm_num

/-- C8 witness: the theorem at the claim's concrete strengths; the
general formula instantiates to (1200/1000) × 1.25 + (900/1100) × 1.25. -/
theorem claim_C8_witness :
    FplAi.calculateExpectedGoals
        (some { strengthAttackHome := some 1200, strengthDefenceHome := some 1100 })
        (some { strengthAttackAway := some 900, strengthDefenceAway := some 1000 })
      = (1200/1000) * 1.25 + (900/1100) * 1.25 :=
  (claim_C8_expected_goals 1200 1000 900 1100
    (by norm_num) (by norm_num) (by norm_num) (by norm_num)).1

/-- C9: `calculateExpectedCleanSheet defence opponentAttack` equals
exp(−estimate) for the single-direction expected-goal estimate
`calculateExpectedTeamGoals opponentAttack defence` whenever that
estimate is finite; for every positive estimate the probability is
strictly between 0 and 1; and it tends to 1 as the estimate tends to 0. -/
theorem claim_C9_clean_sheet_probability :
    (∀ d a q : ℚ,
      FplAi.calculateExpectedTeamGoals a d = FplAi.JsNum.finite q →
      FplAi.calculateExpectedCleanSheet d a = some (FplAi.expNegEstimate (q : ℝ))) ∧
    (∀ g : ℝ, 0 < g → 0 < FplAi.expNegEstimate g ∧ FplAi.expNegEstimate g < 1) ∧
    Filter.Tendsto FplAi.expNegEstimate (nhds 0) (nhds 1) := by
  refine ⟨?_, ?_, ?_⟩
  · intro d a q hq
    unfold FplAi.calculateExpectedCleanSheet
    rw [hq]
  · intro g hg
    exact ⟨Real.exp_pos (-g), Real.exp_lt_one_iff.mpr (by linarith)⟩
  · have hc : Continuous FplAi.expNegEstimate := Real.continuous_exp.comp continuous_neg
    have ht := hc.tendsto 0
    simpa [FplAi.expNegEstimate, Real.exp_zero] using ht

/-- C9 witness: the theorem applied at defence 1000, attack 1000 (a
finite estimate of 5/4) and at the positive real estimate 1. -/
theorem claim_C9_witness :
    FplAi.calculateExpectedCleanSheet 1000 1000 =
      some (FplAi.expNegEstimate ((5/4 : ℚ) : ℝ)) ∧
    0 < FplAi.expNegEstimate 1 ∧ FplAi.expNegEstimate 1 < 1 := by
  have hthm := claim_C9_clean_sheet_probability
  have hfin : FplAi.calculateExpectedTeamGoals 1000 1000 = FplAi.JsNum.finite (5/4) := by
    simp [FplAi.calculateExpectedTeamGoals, FplAi.jsDiv, FplAi.jsMulc]
    norm_num
  exact ⟨hthm.1 1000 1000 (5/4) hfin, hthm.2.1 1 one_pos⟩

/-- C10: `calculatePositionStrength` maps every rank r ≥ 1 into
[0.05, 1] (= [1/20, 1]), with value 1 at rank 1 and 0.05 at rank 20; but
the `createFixtureFeatures` call site defaults an absent team position to
rank 0, where the function returns 20/19 (≈ 1.0526), strictly exceeding
the documented maximum 1. -/
theorem claim_C10_position_strength :
    (∀ r : ℚ, 1 ≤ r →
      1/20 ≤ FplAi.calculatePositionStrength r ∧ FplAi.calculatePositionStrength r ≤ 1) ∧
    FplAi.calculatePositionStrength 1 = 1 ∧
    FplAi.calculatePositionStrength 20 = 1/20 ∧
    FplAi.homePositionStrength none = FplAi.calculatePositionStrength 0 ∧
    FplAi.calculatePositionStrength 0 = 20/19 ∧
    1 < FplAi.calculatePositionStrength 0 := by
  refine ⟨?_, ?_, ?_, rfl, ?_, ?_⟩
  · intro r hr
    unfold FplAi.calculatePositionStrength
    constructor
    · calc (1/20 : ℚ) = 0.05 := by norm_num
        _ ≤ max 0.05 (1 - (r - 1) / 19) := le_max_left _ _
    · apply max_le
      · norm_num
      · have h19 : (0 : ℚ) ≤ (r - 1) / 19 := div_nonneg (by linarith) (by norm_num)
        linarith
  · simp [FplAi.calculatePositionStrength]
    norm_num
  · simp [FplAi.calculatePositionStrength]
    norm_num
  · simp [FplAi.calculatePositionStrength]
    norm_num
  · simp [FplAi.calculatePositionStrength]
    norm_num

/-- C10 witness: the range part of the theorem applied at rank 3. -/
theorem claim_C10_witness :
    1/20 ≤ FplAi.calculatePositionStrength 3 ∧ FplAi.calculatePositionStrength 3 ≤ 1 :=
  claim_C10_position_strength.1 3 (by norm_num)
